import Mathlib

/-!
Verification of the MinIO anomaly-detection and alert-dispatch engine.

Shallow embedding of `src/anomaly-alert.py`.  Metric values (Python
floats) are modelled as real numbers; wall-clock timestamps and the
cooldown duration are modelled as rationals so the alert-gate logic is
executable.  Fallible I/O (HTTP transport, payload parsing) is modelled
by explicit outcome parameters (`Except` / an outcome inductive), since
the network itself is outside the program text.
-/

namespace MinIO

/-! ## Detector library (`AnomalyDetector`, lines 105-149) -/

/-- Embedding of `np.mean(values)`: arithmetic mean over the whole list. -/
noncomputable def mean (values : List ℝ) : ℝ :=
  values.sum / (values.length : ℝ)

/-- Embedding of `np.std(values)` squared: population variance, i.e. the
mean of the squared deviations from `mean values`. -/
noncomputable def variance (values : List ℝ) : ℝ :=
  ((values.map (fun v => (v - mean values) ^ 2)).sum) / (values.length : ℝ)

/-- Embedding of `np.std(values)`: population standard deviation. -/
noncomputable def std (values : List ℝ) : ℝ :=
  Real.sqrt (variance values)

/-- Embedding of `AnomalyDetector.zscore_anomaly` (lines 108-130).
Returns `(is_anomaly, zscore, (lower_bound, upper_bound))`.
`values[-1]` is embedded as `getLastD 0`; the list is non-empty on every
path that reads it because of the `length < 2` guard. -/
noncomputable def zscore_anomaly (values : List ℝ) (threshold : ℝ) :
    Bool × ℝ × (ℝ × ℝ) :=
  if values.length < 2 then (false, 0, (0, 0))
  else if std values = 0 then (false, 0, (mean values, mean values))
  else
    let current := values.getLastD 0
    let zscore := |current - mean values| / std values
    let lower := mean values - threshold * std values
    let upper := mean values + threshold * std values
    (decide (zscore > threshold), zscore, (lower, upper))

/-- Embedding of `AnomalyDetector.rate_of_change_anomaly` (lines 132-149).
Returns `(is_anomaly, rate_of_change_percent)`.  `values[-10:]` is the
last ten elements, the whole list when it is shorter.  Values are
rationals here so the detector is executable. -/
def rate_of_change_anomaly (values : List ℚ) (threshold : ℚ) : Bool × ℚ :=
  if values.length < 2 then (false, 0)
  else
    let recent := if 10 ≤ values.length then values.drop (values.length - 10) else values
    if recent.headD 0 = 0 then (false, 0)
    else
      let rate_change := ((recent.getLastD 0 - recent.headD 0) / recent.headD 0) * 100
      (decide (|rate_change| > threshold), rate_change)

/-! ## Alert gate (`_can_alert` / `_record_alert`, lines 431-438)

The cooldown registry `alert_cooldown_dict` is a map from alert key to
the last recorded timestamp; `dict.get(key, 0)` is `(st k).getD 0`. -/

/-- Embedding of `MinIOAnomalyMonitor._can_alert` (lines 431-434):
`(time.time() - last_alert) > alert_cooldown` with `last_alert`
defaulting to `0` for a key never recorded. -/
def can_alert (st : String → Option ℚ) (cooldown : ℚ) (key : String) (now : ℚ) : Bool :=
  decide (cooldown < now - ((st key).getD 0))

/-- Embedding of `MinIOAnomalyMonitor._record_alert` (lines 436-438): stamp `now`
against `key`, leaving every other entry unchanged. -/
def record_alert (st : String → Option ℚ) (key : String) (now : ℚ) :
    String → Option ℚ :=
  fun k => if k = key then some now else st k

/-! ## Alerts and the notifier (`AnomalyAlert`, `DiscordNotifier`, lines 51-58, 210-268) -/

/-- The `AnomalyAlert` dataclass (lines 51-58), without the timestamp
and free-text fields that play no role in any claim's logic. -/
structure AnomalyAlert where
  metric_name : String
  current_value : ℝ
  expected_range : ℝ × ℝ
  severity : String

/-- Embedding of `DiscordNotifier.send_alert` (lines 216-268).  The whole `try`
body — building the embed payload and the HTTP post with
`raise_for_status` — is modelled by its outcome `delivery`: `.ok` when
the post succeeds, `.error msg` when any formatting or transport
exception is raised.  The `except` clause logs and returns `False`;
the success path returns `True`. -/
def send_alert (delivery : Except String Unit) : Bool :=
  match delivery with
  | .ok _ => true
  | .error _ => false

/-- Embedding of `name.lower().replace(' ', '_')` (lines 384 and 397), applied to
the display names of the network signals to obtain their alert keys. -/
def alertKeyOf (name : String) : String :=
  String.mk (name.data.map (fun c => if c = ' ' then '_' else c.toLower))

/-! ## Evaluators (`check_storage_space`, `check_network_traffic`,
lines 307-337 and 373-397)

Each evaluator is a pure function of: the series fetched from
Prometheus, the cooldown registry, the wall-clock instants at which
`_can_alert` and `_record_alert` read the clock, the configuration, and
the delivery outcome of the notifier.  It returns the updated registry
together with the list of notification attempts made (alert paired with
the delivery result). -/

/-- Embedding of `MinIOAnomalyMonitor.check_storage_space` (lines 307-337).
`tNow` is `time.time()` inside `_can_alert`, `tRec` the later
`time.time()` inside `_record_alert`. -/
noncomputable def check_storage_space (values : List ℝ) (st : String → Option ℚ)
    (tNow tRec cooldown : ℚ) (zscore_threshold : ℝ) (delivery : Except String Unit) :
    (String → Option ℚ) × List (AnomalyAlert × Bool) :=
  if values = [] then (st, [])
  else
    let r := zscore_anomaly values zscore_threshold
    if r.1 = true ∧ can_alert st cooldown "storage_space" tNow = true then
      let current := values.getLastD 0
      let severity := if current < r.2.2.1 * 0.5 then "high" else "medium"
      let alert : AnomalyAlert :=
        ⟨"Disk Storage - Free Space", current / 1e9, (r.2.2.1 / 1e9, r.2.2.2 / 1e9), severity⟩
      let ok := send_alert delivery
      (record_alert st "storage_space" tRec, [(alert, ok)])
    else (st, [])

/-- One iteration of the `for name, values in [...]` loop of
`MinIOAnomalyMonitor.check_network_traffic` (lines 381-397). -/
noncomputable def check_network_signal (name : String) (values : List ℝ)
    (st : String → Option ℚ) (tNow tRec cooldown : ℚ) (zscore_threshold : ℝ)
    (delivery : Except String Unit) :
    (String → Option ℚ) × List (AnomalyAlert × Bool) :=
  let key := alertKeyOf name
  let r := zscore_anomaly values zscore_threshold
  if r.1 = true ∧ can_alert st cooldown key tNow = true then
    let current := values.getLastD 0
    let severity := if (4 : ℝ) < r.2.1 then "high" else "medium"
    let alert : AnomalyAlert :=
      ⟨name ++ " (bytes/sec)", current / 1e6, (r.2.2.1 / 1e6, r.2.2.2 / 1e6), severity⟩
    (record_alert st key tRec, [(alert, send_alert delivery)])
  else (st, [])

/-- Embedding of `MinIOAnomalyMonitor.check_network_traffic` (lines 373-397):
early return when *either* fetched series is empty, otherwise the send
signal is processed first and the receive signal second, threading the
cooldown registry through. -/
noncomputable def check_network_traffic (send_values recv_values : List ℝ)
    (st : String → Option ℚ) (t1 t1r t2 t2r cooldown : ℚ) (zscore_threshold : ℝ)
    (d1 d2 : Except String Unit) :
    (String → Option ℚ) × List (AnomalyAlert × Bool) :=
  if send_values = [] ∨ recv_values = [] then (st, [])
  else
    let r1 := check_network_signal "Network Send" send_values st t1 t1r
      cooldown zscore_threshold d1
    let r2 := check_network_signal "Network Receive" recv_values r1.1 t2 t2r
      cooldown zscore_threshold d2
    (r2.1, r1.2 ++ r2.2)

/-! ## Insight generation (`OpenWebUIInsight.generate_context`, lines 161-208) -/

/-- Outcome of the HTTP exchange inside `generate_context`'s `try`
block.  `timeout` is `requests.Timeout`; `exn` is any other exception
raised while building or sending the request; `response status content`
is a completed HTTP response, where `content` is the stripped string
`result['choices'][0]['message']['content'].strip()` when the payload
parses, and `none` when extraction raises (malformed payload — the
raised `KeyError`/`IndexError` lands in the generic `except`).
Strings are modelled as lists of characters. -/
inductive ApiResult where
  | timeout : ApiResult
  | exn : String → ApiResult
  | response : ℕ → Option (List Char) → ApiResult

/-- Embedding of `OpenWebUIInsight.generate_context` (lines 161-208): on a 200
response with a well-formed payload it returns `insight[:250]` (or `""`
when the stripped insight is empty); every other path — timeout,
non-200 status, malformed payload, any other exception — logs and
returns `""`. -/
def generate_context (r : ApiResult) : List Char :=
  match r with
  | .timeout => []
  | .exn _ => []
  | .response status content =>
    if status = 200 then
      match content with
      | none => []
      | some insight => if insight = [] then [] else insight.take 250
    else []

/-- Failure modes of the insight service enumerated by the spec. -/
def insightFailed (r : ApiResult) : Bool :=
  match r with
  | .timeout => true
  | .exn _ => true
  | .response status content => decide (status ≠ 200) || content.isNone

/-! ## The main loop (`MinIOAnomalyMonitor.run`, lines 440-457)

A run of the service is abstracted by the sequence of outcomes its
successive evaluation cycles *would* have, were they executed: a cycle
either completes (`ok`), raises an exception (`exn`), or is interrupted
by `KeyboardInterrupt` (`interrupt`). -/

/-- Outcome of one evaluation cycle of the main loop. -/
inductive CycleOutcome where
  | ok : CycleOutcome
  | exn : CycleOutcome
  | interrupt : CycleOutcome

/-- Number of cycles `MinIOAnomalyMonitor.run` (lines 440-457) starts
before returning, given the outcome each successive cycle would have.
The `try` block encloses the `while True` loop from outside, so the
first raising cycle — whether `KeyboardInterrupt` or any other
exception — leaves the loop: the matching `except` clause runs (the
generic one sleeps once more) and `run` returns. -/
def cyclesExecuted : List CycleOutcome → ℕ
  | [] => 0
  | .ok :: rest => 1 + cyclesExecuted rest
  | .exn :: _ => 1
  | .interrupt :: _ => 1

/-- Modelled from the spec: the number of cycles the orchestration loop
of §4.6/§7 starts, under the specified behaviour that a cycle-level
failure is caught at the loop level and the loop then continues with
the next cycle, only an explicit interrupt stopping it. -/
def cyclesExecutedSpec : List CycleOutcome → ℕ
  | [] => 0
  | .interrupt :: _ => 1
  | _ :: rest => 1 + cyclesExecutedSpec rest

/-! ## Delivery traces for the cooldown invariant

For the temporal claim about the alert gate we abstract one evaluation
of one alert key into an event: the key, whether the detectors flagged
an anomaly this cycle, and the wall-clock instants at which the
evaluator calls `_can_alert`, invokes `send_alert`, and calls
`_record_alert`.  Every delivery path in the source (lines 315-337,
348-371, 384-397, 407-429) has exactly this shape: the guard
`is_anomaly and self._can_alert(key)` followed by
`send_alert` and then `_record_alert(key)`. -/

/-- One evaluation of one alert key during some cycle. -/
structure AlertEvent where
  key : String
  anomalous : Bool
  tCheck : ℚ
  tSend : ℚ
  tRecord : ℚ

/-- Events happen in program order with a (weakly) monotone wall
clock: `t` lower-bounds the first event, and within an event the check,
send and record instants are ordered. -/
def wfTrace : ℚ → List AlertEvent → Prop
  | _, [] => True
  | t, e :: es => t ≤ e.tCheck ∧ e.tCheck ≤ e.tSend ∧ e.tSend ≤ e.tRecord ∧ wfTrace e.tRecord es

/-- Run the monitor over a trace of evaluation events, starting from
cooldown registry `st`.  Returns the deliveries made: for each event
whose anomaly flag is set and whose gate `_can_alert` opens, the
notifier is invoked (delivery `(key, tSend)`) and `_record_alert`
stamps `tRecord` against the key. -/
def monitorRun (cooldown : ℚ) : (String → Option ℚ) → List AlertEvent → List (String × ℚ)
  | _, [] => []
  | st, e :: es =>
    if e.anomalous = true ∧ can_alert st cooldown e.key e.tCheck = true then
      (e.key, e.tSend) :: monitorRun cooldown (record_alert st e.key e.tRecord) es
    else
      monitorRun cooldown st es

/-- A concrete series used by several evaluation lemmas below: nine
zeros followed by a spike of 10.  Its mean is 1, its population
standard deviation 3, and the z-score of the last point 3. -/
def spike10L : List ℝ := [0, 0, 0, 0, 0, 0, 0, 0, 0, 10]

/-! ## Concrete evaluation lemmas -/

lemma mean_spike : mean spike10L = 1 := by
  simp [mean, spike10L]

lemma std_spike : std spike10L = 3 := by
  have hv : variance spike10L = 9 := by
    rw [variance, spike10L]
    rw [show mean [0, 0, 0, 0, 0, 0, 0, 0, 0, (10 : ℝ)] = 1 from mean_spike]
    norm_num
  rw [std, hv, show (9 : ℝ) = 3 ^ 2 by norm_num, Real.sqrt_sq (by norm_num)]

lemma zscore_spike :
    zscore_anomaly spike10L (5 / 2) = (true, 3, (-13 / 2, 17 / 2)) := by
  rw [zscore_anomaly, if_neg (by simp [spike10L]), if_neg (by rw [std_spike]; norm_num)]
  have hlast : spike10L.getLastD 0 = 10 := by simp [spike10L]
  simp only [hlast, mean_spike, std_spike]
  norm_num

lemma std_pair : std [0, 2] = 1 := by
  have hm : mean [0, 2] = 1 := by simp [mean]
  have hv : variance [0, 2] = 1 := by simp [variance, hm]; norm_num
  simp [std, hv]

/-- Unfolding of the z-score detector on the interesting path: at least
two samples and a non-flat series. -/
lemma zscore_anomaly_eq (values : List ℝ) (t : ℝ) (h2 : 2 ≤ values.length)
    (hσ : std values ≠ 0) :
    zscore_anomaly values t
      = (decide (|values.getLastD 0 - mean values| / std values > t),
         |values.getLastD 0 - mean values| / std values,
         (mean values - t * std values, mean values + t * std values)) := by
  rw [zscore_anomaly, if_neg (by omega), if_neg hσ]

/-- Claim C3: for a series of length at least 2 with nonzero population
standard deviation, `zscore_anomaly` returns the score
`|last - mean| / std` computed over the entire list, the expected range
`(mean - threshold * std, mean + threshold * std)`, and an anomaly flag
that holds exactly when the score strictly exceeds the threshold; in
particular a last value lying exactly `threshold` standard deviations
from the mean is not flagged. -/
theorem zscore_anomaly_functional_correctness (values : List ℝ) (t : ℝ)
    (h2 : 2 ≤ values.length) (hσ : std values ≠ 0) :
    zscore_anomaly values t
      = (decide (|values.getLastD 0 - mean values| / std values > t),
         |values.getLastD 0 - mean values| / std values,
         (mean values - t * std values, mean values + t * std values))
    ∧ ((zscore_anomaly values t).1 = true ↔
        t < |values.getLastD 0 - mean values| / std values)
    ∧ (|values.getLastD 0 - mean values| = t * std values →
        (zscore_anomaly values t).1 = false) := by
  have h1 := zscore_anomaly_eq values t h2 hσ
  refine ⟨h1, ?_, ?_⟩
  · rw [h1]
    simp [decide_eq_true_eq]
  · intro hb
    rw [h1]
    have hsc : |values.getLastD 0 - mean values| / std values = t := by
      rw [hb]
      field_simp
    show decide (|values.getLastD 0 - mean values| / std values > t) = false
    exact decide_eq_false (by rw [gt_iff_lt, hsc]; exact lt_irrefl t)

/-- Claim C3, witness: the series `[0, 2]` with threshold 1 has mean 1,
standard deviation 1, and its last value sits exactly one standard
deviation from the mean: the anomaly flag is false. -/
theorem zscore_anomaly_functional_correctness_witness :
    zscore_anomaly [0, 2] 1
      = (decide (|([0, 2] : List ℝ).getLastD 0 - mean [0, 2]| / std [0, 2] > 1),
         |([0, 2] : List ℝ).getLastD 0 - mean [0, 2]| / std [0, 2],
         (mean [0, 2] - 1 * std [0, 2], mean [0, 2] + 1 * std [0, 2]))
    ∧ ((zscore_anomaly [0, 2] 1).1 = true ↔
        1 < |([0, 2] : List ℝ).getLastD 0 - mean [0, 2]| / std [0, 2])
    ∧ (|([0, 2] : List ℝ).getLastD 0 - mean [0, 2]| = 1 * std [0, 2] →
        (zscore_anomaly [0, 2] 1).1 = false) :=
  zscore_anomaly_functional_correctness [0, 2] 1 (by norm_num)
    (by rw [std_pair]; norm_num)

/-- Claim C10: on the same path, the anomaly flag holds exactly when
the last value lies strictly outside the returned expected range, the
returned range is ordered, and the score is nonnegative. -/
theorem zscore_anomaly_range_agreement (values : List ℝ) (t : ℝ)
    (h2 : 2 ≤ values.length) (hσ : std values ≠ 0) (ht : 0 ≤ t) :
    ((zscore_anomaly values t).1 = true ↔
      (values.getLastD 0 < (zscore_anomaly values t).2.2.1 ∨
        (zscore_anomaly values t).2.2.2 < values.getLastD 0))
    ∧ (zscore_anomaly values t).2.2.1 ≤ (zscore_anomaly values t).2.2.2
    ∧ 0 ≤ (zscore_anomaly values t).2.1 := by
  have h1 := zscore_anomaly_eq values t h2 hσ
  have hσpos : 0 < std values :=
    lt_of_le_of_ne (Real.sqrt_nonneg _) (Ne.symm hσ)
  rw [h1]
  refine ⟨?_, ?_, ?_⟩
  · simp only [decide_eq_true_eq, gt_iff_lt]
    rw [lt_div_iff₀ hσpos, lt_abs]
    constructor
    · rintro (h | h)
      · right; linarith
      · left; linarith
    · rintro (h | h)
      · right; linarith
      · left; linarith
  · have := mul_nonneg ht hσpos.le
    dsimp only
    linarith
  · exact div_nonneg (abs_nonneg _) hσpos.le

/-- Claim C10, witness: on `[0, 2]` with threshold 1 the flag is false
and indeed the last value 2 is not strictly outside the range `(0, 2)`. -/
theorem zscore_anomaly_range_agreement_witness :
    (((zscore_anomaly [0, 2] 1).1 = true ↔
      (([0, 2] : List ℝ).getLastD 0 < (zscore_anomaly [0, 2] 1).2.2.1 ∨
        (zscore_anomaly [0, 2] 1).2.2.2 < ([0, 2] : List ℝ).getLastD 0))
    ∧ (zscore_anomaly [0, 2] 1).2.2.1 ≤ (zscore_anomaly [0, 2] 1).2.2.2
    ∧ 0 ≤ (zscore_anomaly [0, 2] 1).2.1) :=
  zscore_anomaly_range_agreement [0, 2] 1 (by norm_num)
    (by rw [std_pair]; norm_num) (by norm_num)

/-- Unfolding of the recent sub-window selected by
`rate_of_change_anomaly`: the two-armed conditional of the source is
exactly `drop (length - 10)`, because dropping `length - 10 = 0`
elements of a short list keeps the whole list. -/
lemma recent_window_eq (values : List ℚ) :
    (if 10 ≤ values.length then values.drop (values.length - 10) else values)
      = values.drop (values.length - 10) := by
  split
  · rfl
  · next h => rw [show values.length - 10 = 0 by omega, List.drop_zero]

/-- Claim C4: for a series of length at least 2, the rate-of-change
detector works on the last 10 points (the whole series when shorter,
uniformly `drop (length - 10)`); a zero first value of that sub-window
yields `(false, 0)`; otherwise the reported change is
`(last - first) / first * 100` and the anomaly flag holds exactly when
its absolute value strictly exceeds the threshold, independently of
sign. -/
theorem rate_of_change_functional_correctness (values : List ℚ) (t : ℚ)
    (h2 : 2 ≤ values.length) :
    (10 ≤ values.length → (values.drop (values.length - 10)).length = 10)
    ∧ ((values.drop (values.length - 10)).headD 0 = 0 →
        rate_of_change_anomaly values t = (false, 0))
    ∧ ((values.drop (values.length - 10)).headD 0 ≠ 0 →
        rate_of_change_anomaly values t
          = (decide (|((values.drop (values.length - 10)).getLastD 0 -
                (values.drop (values.length - 10)).headD 0) /
                (values.drop (values.length - 10)).headD 0 * 100| > t),
             ((values.drop (values.length - 10)).getLastD 0 -
                (values.drop (values.length - 10)).headD 0) /
                (values.drop (values.length - 10)).headD 0 * 100)
        ∧ ((rate_of_change_anomaly values t).1 = true ↔
            t < |((values.drop (values.length - 10)).getLastD 0 -
                (values.drop (values.length - 10)).headD 0) /
                (values.drop (values.length - 10)).headD 0 * 100|)) := by
  refine ⟨?_, ?_, ?_⟩
  · intro h10
    rw [List.length_drop]
    omega
  · intro h0
    rw [rate_of_change_anomaly, if_neg (by omega)]
    simp only [recent_window_eq]
    rw [if_pos h0]
  · intro h0
    have he : rate_of_change_anomaly values t
        = (decide (|((values.drop (values.length - 10)).getLastD 0 -
              (values.drop (values.length - 10)).headD 0) /
              (values.drop (values.length - 10)).headD 0 * 100| > t),
           ((values.drop (values.length - 10)).getLastD 0 -
              (values.drop (values.length - 10)).headD 0) /
              (values.drop (values.length - 10)).headD 0 * 100) := by
      rw [rate_of_change_anomaly, if_neg (by omega)]
      simp only [recent_window_eq]
      rw [if_neg h0]
    refine ⟨he, ?_⟩
    rw [he]
    simp [decide_eq_true_eq]

/-- Claim C4, witness: the series `[1, 3]` with threshold 100 has
recent sub-window `[1, 3]`, change `+200%`, and is flagged. -/
theorem rate_of_change_functional_correctness_witness :
    (10 ≤ ([1, 3] : List ℚ).length → (([1, 3] : List ℚ).drop (([1, 3] : List ℚ).length - 10)).length = 10)
    ∧ ((([1, 3] : List ℚ).drop (([1, 3] : List ℚ).length - 10)).headD 0 = 0 →
        rate_of_change_anomaly [1, 3] 100 = (false, 0))
    ∧ ((([1, 3] : List ℚ).drop (([1, 3] : List ℚ).length - 10)).headD 0 ≠ 0 →
        rate_of_change_anomaly [1, 3] 100
          = (decide (|((([1, 3] : List ℚ).drop (([1, 3] : List ℚ).length - 10)).getLastD 0 -
                (([1, 3] : List ℚ).drop (([1, 3] : List ℚ).length - 10)).headD 0) /
                (([1, 3] : List ℚ).drop (([1, 3] : List ℚ).length - 10)).headD 0 * 100| > 100),
             ((([1, 3] : List ℚ).drop (([1, 3] : List ℚ).length - 10)).getLastD 0 -
                (([1, 3] : List ℚ).drop (([1, 3] : List ℚ).length - 10)).headD 0) /
                (([1, 3] : List ℚ).drop (([1, 3] : List ℚ).length - 10)).headD 0 * 100)
        ∧ ((rate_of_change_anomaly [1, 3] 100).1 = true ↔
            100 < |((([1, 3] : List ℚ).drop (([1, 3] : List ℚ).length - 10)).getLastD 0 -
                (([1, 3] : List ℚ).drop (([1, 3] : List ℚ).length - 10)).headD 0) /
                (([1, 3] : List ℚ).drop (([1, 3] : List ℚ).length - 10)).headD 0 * 100|)) :=
  rate_of_change_functional_correctness [1, 3] 100 (by norm_num)

/-- Claim C5: with fewer than two samples each detector returns its
fixed no-anomaly result, and on a constant series of length at least 2
the z-score detector reports no anomaly with the expected range
collapsed to the constant value. -/
theorem detectors_degenerate_inputs :
    (∀ (values : List ℝ) (t : ℝ), values.length < 2 →
      zscore_anomaly values t = (false, 0, (0, 0)))
    ∧ (∀ (values : List ℚ) (t : ℚ), values.length < 2 →
      rate_of_change_anomaly values t = (false, 0))
    ∧ (∀ (values : List ℝ) (t c : ℝ), 2 ≤ values.length →
      (∀ v ∈ values, v = c) →
      zscore_anomaly values t = (false, 0, (c, c))) := by
  refine ⟨?_, ?_, ?_⟩
  · intro values t h
    rw [zscore_anomaly, if_pos h]
  · intro values t h
    rw [rate_of_change_anomaly, if_pos h]
  · intro values t c h2 hc
    have hne : (values.length : ℝ) ≠ 0 := by
      simp only [ne_eq, Nat.cast_eq_zero]
      omega
    have hrep : values = List.replicate values.length c :=
      List.eq_replicate_iff.2 ⟨rfl, hc⟩
    have hm : mean values = c := by
      have hsum : values.sum = (values.length : ℝ) * c := by
        conv_lhs => rw [hrep]
        rw [List.sum_replicate, nsmul_eq_mul]
      rw [mean, hsum]
      field_simp
    have hv : variance values = 0 := by
      have hmap : values.map (fun v => (v - mean values) ^ 2)
          = List.replicate values.length 0 := by
        rw [hm]
        conv_lhs => rw [hrep]
        rw [List.map_replicate]
        simp
      rw [variance, hmap, List.sum_replicate]
      simp
    have hσ : std values = 0 := by rw [std, hv, Real.sqrt_zero]
    rw [zscore_anomaly, if_neg (by omega), if_pos hσ, hm]

/-- Claim C5, witness: the detectors on `[5]`, `[4]` and the constant
series `[2, 2, 2]`. -/
theorem detectors_degenerate_inputs_witness :
    zscore_anomaly [5] 3 = (false, 0, (0, 0))
    ∧ rate_of_change_anomaly [4] 2 = (false, 0)
    ∧ zscore_anomaly [2, 2, 2] 1 = (false, 0, (2, 2)) :=
  ⟨detectors_degenerate_inputs.1 [5] 3 (by norm_num),
   detectors_degenerate_inputs.2.1 [4] 2 (by norm_num),
   detectors_degenerate_inputs.2.2 [2, 2, 2] 1 2 (by norm_num)
     (by
       intro v hv
       simp only [List.mem_cons, List.not_mem_nil, or_false] at hv
       rcases hv with h | h | h <;> exact h)⟩

/-- Claim C6: under a wall clock that has advanced past the cooldown
duration (as `time.time()` — seconds since the epoch — always has for
any realistic cooldown), `_can_alert k` holds exactly when no alert was
ever recorded for `k` or the elapsed time since the last recorded alert
for `k` strictly exceeds the cooldown; `_record_alert k` stamps the
current time against `k`, leaves every other key unchanged, and leaves
`_can_alert` for every other key unaffected. -/
theorem alert_gate_contract (st : String → Option ℚ) (cooldown now t2 : ℚ)
    (k k2 : String) (hwall : cooldown < now) (hk : k2 ≠ k) :
    (can_alert st cooldown k now = true ↔
      (st k = none ∨ cooldown < now - ((st k).getD 0)))
    ∧ record_alert st k now k = some now
    ∧ record_alert st k now k2 = st k2
    ∧ can_alert (record_alert st k now) cooldown k2 t2
        = can_alert st cooldown k2 t2 := by
  refine ⟨?_, ?_, ?_, ?_⟩
  · rw [can_alert, decide_eq_true_eq]
    cases hst : st k with
    | none => simp [hst, hwall]
    | some l => simp [hst]
  · rw [record_alert]
    simp
  · rw [record_alert]
    simp [hk]
  · rw [can_alert, can_alert, record_alert]
    simp [hk]

/-- Claim C6, witness: with cooldown 300, an alert for key `a` recorded
at time 100, the gate read at time 500 for `a` and at 450 for `b`. -/
theorem alert_gate_contract_witness :
    (can_alert (record_alert (fun _ => none) "a" 100) 300 "a" 500 = true ↔
      ((record_alert (fun _ => none) "a" 100) "a" = none ∨
        300 < 500 - (((record_alert (fun _ => none) "a" 100) "a").getD 0)))
    ∧ record_alert (record_alert (fun _ => none) "a" 100) "a" 500 "a" = some 500
    ∧ record_alert (record_alert (fun _ => none) "a" 100) "a" 500 "b"
        = (record_alert (fun _ => none) "a" 100) "b"
    ∧ can_alert (record_alert (record_alert (fun _ => none) "a" 100) "a" 500) 300 "b" 450
        = can_alert (record_alert (fun _ => none) "a" 100) 300 "b" 450 :=
  alert_gate_contract (record_alert (fun _ => none) "a" 100) 300 500 450 "a" "b"
    (by norm_num) (by decide)

/-- Claim C9: insight generation never produces more than 250
characters, and every failure mode of the insight service — timeout,
any other exception, a non-200 response, a malformed payload — yields
the empty string.  Totality of `generate_context` is the embedded form
of the no-raise guarantee. -/
theorem insight_bounded_and_failure_silent (r : ApiResult) :
    (generate_context r).length ≤ 250
    ∧ (insightFailed r = true → generate_context r = []) := by
  constructor
  · cases r with
    | timeout => simp [generate_context]
    | exn m => simp [generate_context]
    | response status content =>
      cases content with
      | none => simp [generate_context]
      | some insight =>
        simp only [generate_context]
        split
        · split
          · simp
          · rw [List.length_take]
            omega
        · simp
  · intro hf
    cases r with
    | timeout => rfl
    | exn m => rfl
    | response status content =>
      simp only [insightFailed, Bool.or_eq_true, decide_eq_true_eq,
        Option.isNone_iff_eq_none] at hf
      rcases hf with hs | hc
      · simp only [generate_context]
        rw [if_neg hs]
      · subst hc
        simp only [generate_context]
        split <;> rfl

/-- Claim C9, witness: a 500 response yields the empty insight. -/
theorem insight_bounded_and_failure_silent_witness :
    (generate_context (.response 500 (some ['a']))).length ≤ 250
    ∧ generate_context (.response 500 (some ['a'])) = [] :=
  ⟨(insight_bounded_and_failure_silent (.response 500 (some ['a']))).1,
   (insight_bounded_and_failure_silent (.response 500 (some ['a']))).2 (by decide)⟩

/-- Claim C2 evaluated on the code: in `MinIOAnomalyMonitor.run` the
`try` block encloses the `while True` loop from outside, so when the
second of three cycles raises, the loop exits after two started cycles
and `run` returns; the specified behaviour — catch, log, sleep,
continue — would have started all three.  The final conjunct records
that the code terminates the loop on a non-interrupt failure while the
specification forbids exactly that. -/
theorem run_loop_stops_on_cycle_failure :
    cyclesExecuted [.ok, .exn, .ok] = 2
    ∧ cyclesExecutedSpec [.ok, .exn, .ok] = 3
    ∧ cyclesExecuted [.ok, .exn, .ok] ≠ cyclesExecutedSpec [.ok, .exn, .ok] := by
  refine ⟨rfl, rfl, ?_⟩
  decide

/-- Claim C7: `send_alert` turns every transport or formatting
exception into the return value `false` (its totality embeds the
no-raise guarantee), and on an evaluator's alert path the cooldown is
recorded whatever the delivery outcome: the updated registry of the
storage evaluator — and of each network-signal evaluation — does not
depend on the delivery outcome, and on the alert path the key is
stamped with the record-time. -/
theorem delivery_failure_swallowed_cooldown_recorded (m : String)
    (values : List ℝ) (st : String → Option ℚ) (tNow tRec cooldown : ℚ)
    (zthr : ℝ) (d d1 d2 : Except String Unit)
    (hpath : (zscore_anomaly values zthr).1 = true ∧
      can_alert st cooldown "storage_space" tNow = true ∧ values ≠ []) :
    send_alert (.error m) = false
    ∧ (check_storage_space values st tNow tRec cooldown zthr d1).1
        = (check_storage_space values st tNow tRec cooldown zthr d2).1
    ∧ (check_storage_space values st tNow tRec cooldown zthr d).1 "storage_space"
        = some tRec
    ∧ ∀ (name : String) (nv : List ℝ) (nst : String → Option ℚ)
        (a b : Except String Unit),
        (check_network_signal name nv nst tNow tRec cooldown zthr a).1
          = (check_network_signal name nv nst tNow tRec cooldown zthr b).1 := by
  obtain ⟨hanom, hgate, hne⟩ := hpath
  refine ⟨rfl, ?_, ?_, ?_⟩
  · simp only [check_storage_space]
    split
    · rfl
    · split
      · rfl
      · rfl
  · simp only [check_storage_space]
    rw [if_neg hne, if_pos ⟨hanom, hgate⟩]
    simp [record_alert]
  · intro name nv nst a b
    simp only [check_network_signal]
    split
    · rfl
    · rfl

/-- Claim C7, witness: the spike series on the storage evaluator with a
failing delivery on one side and a succeeding one on the other. -/
theorem delivery_failure_swallowed_cooldown_recorded_witness :
    send_alert (.error "boom") = false
    ∧ (check_storage_space spike10L (fun _ => none) 400 401 300 (5 / 2) (.ok ())).1
        = (check_storage_space spike10L (fun _ => none) 400 401 300 (5 / 2)
            (.error "down")).1
    ∧ (check_storage_space spike10L (fun _ => none) 400 401 300 (5 / 2)
        (.error "down")).1 "storage_space" = some 401
    ∧ ∀ (name : String) (nv : List ℝ) (nst : String → Option ℚ)
        (a b : Except String Unit),
        (check_network_signal name nv nst 400 401 300 (5 / 2) a).1
          = (check_network_signal name nv nst 400 401 300 (5 / 2) b).1 :=
  delivery_failure_swallowed_cooldown_recorded "boom" spike10L (fun _ => none)
    400 401 300 (5 / 2) (.error "down") (.ok ()) (.error "down")
    ⟨by rw [zscore_spike], by norm_num [can_alert], by simp [spike10L]⟩

/-- A network-signal evaluation touches the cooldown registry only at
its own alert key. -/
lemma check_network_signal_frame (name : String) (values : List ℝ)
    (st : String → Option ℚ) (tNow tRec cooldown : ℚ) (zthr : ℝ)
    (d : Except String Unit) (k : String) (hk : k ≠ alertKeyOf name) :
    (check_network_signal name values st tNow tRec cooldown zthr d).1 k = st k := by
  simp only [check_network_signal]
  split
  · simp [record_alert, hk]
  · rfl

/-- A network-signal evaluation reads the cooldown registry only at its
own alert key: two registries agreeing there produce the same
notifications and the same entry at that key. -/
lemma check_network_signal_depends_only_on_own_key (name : String)
    (values : List ℝ) (st st' : String → Option ℚ) (tNow tRec cooldown : ℚ)
    (zthr : ℝ) (d : Except String Unit)
    (hagree : st' (alertKeyOf name) = st (alertKeyOf name)) :
    (check_network_signal name values st' tNow tRec cooldown zthr d).2
        = (check_network_signal name values st tNow tRec cooldown zthr d).2
    ∧ (check_network_signal name values st' tNow tRec cooldown zthr d).1 (alertKeyOf name)
        = (check_network_signal name values st tNow tRec cooldown zthr d).1 (alertKeyOf name) := by
  have hgate : can_alert st' cooldown (alertKeyOf name) tNow
      = can_alert st cooldown (alertKeyOf name) tNow := by
    rw [can_alert, can_alert, hagree]
  simp only [check_network_signal, hgate]
  split
  · exact ⟨rfl, by simp [record_alert]⟩
  · exact ⟨rfl, hagree⟩

/-- Claim C8, counterexample: with an empty send series, a receive
series that is anomalous at threshold 2.5, and a fully open gate, the
network evaluator performs no detection, no cooldown mutation and no
notification attempt for the receive signal either — although the
receive signal evaluated on its own would have alerted. -/
theorem network_empty_series_suppresses_other_signal :
    (zscore_anomaly spike10L (5 / 2)).1 = true
    ∧ can_alert (fun _ => none) 300 (alertKeyOf "Network Receive") 400 = true
    ∧ (check_network_signal "Network Receive" spike10L (fun _ => none)
        400 401 300 (5 / 2) (.ok ())).2 ≠ []
    ∧ check_network_traffic [] spike10L (fun _ => none) 400 401 400 401 300 (5 / 2)
        (.ok ()) (.ok ()) = ((fun _ => none), []) := by
  refine ⟨by rw [zscore_spike], by norm_num [can_alert], ?_, ?_⟩
  · simp only [check_network_signal, zscore_spike]
    rw [if_pos ⟨trivial, by norm_num [can_alert]⟩]
    simp
  · simp only [check_network_traffic]
    simp

/-- Claim C8, amended: an empty series makes the evaluator a no-op —
no detection, no cooldown mutation, no notification attempt — but for
the network evaluator an empty series for *either* signal suppresses
the evaluation of both, because of the combined early return.  Within
one evaluator run the two network signals are otherwise independent:
they use distinct alert keys, and the send signal's gate check and
cooldown recording never affect the receive signal's notifications or
its cooldown entry. -/
theorem evaluators_empty_series_noop (send_values recv_values : List ℝ)
    (st : String → Option ℚ) (t1 t1r t2 t2r cooldown : ℚ) (zthr : ℝ)
    (d1 d2 : Except String Unit) :
    ((send_values = [] ∨ recv_values = []) →
      check_network_traffic send_values recv_values st t1 t1r t2 t2r cooldown zthr d1 d2
        = (st, []))
    ∧ check_storage_space [] st t1 t1r cooldown zthr d1 = (st, [])
    ∧ alertKeyOf "Network Send" ≠ alertKeyOf "Network Receive"
    ∧ (check_network_signal "Network Receive" recv_values
        (check_network_signal "Network Send" send_values st t1 t1r cooldown zthr d1).1
        t2 t2r cooldown zthr d2).2
      = (check_network_signal "Network Receive" recv_values st t2 t2r cooldown zthr d2).2
    ∧ (check_network_signal "Network Receive" recv_values
        (check_network_signal "Network Send" send_values st t1 t1r cooldown zthr d1).1
        t2 t2r cooldown zthr d2).1 (alertKeyOf "Network Receive")
      = (check_network_signal "Network Receive" recv_values st t2 t2r cooldown zthr d2).1
          (alertKeyOf "Network Receive") := by
  have hkeys : alertKeyOf "Network Send" ≠ alertKeyOf "Network Receive" := by decide
  have hagree := check_network_signal_frame "Network Send" send_values st t1 t1r
    cooldown zthr d1 (alertKeyOf "Network Receive") (by decide)
  have hind := check_network_signal_depends_only_on_own_key "Network Receive"
    recv_values st
    (check_network_signal "Network Send" send_values st t1 t1r cooldown zthr d1).1
    t2 t2r cooldown zthr d2 hagree
  refine ⟨?_, ?_, hkeys, hind.1, hind.2⟩
  · intro h
    simp only [check_network_traffic]
    rw [if_pos h]
  · simp only [check_storage_space]
    simp

/-- Claim C8 amended, witness: an empty receive series makes the whole
network evaluator a no-op even though the send series is the anomalous
spike. -/
theorem evaluators_empty_series_noop_witness :
    check_network_traffic spike10L [] (fun _ => none) 400 401 402 403 300 (5 / 2)
        (.ok ()) (.ok ()) = ((fun _ => none), [])
    ∧ check_storage_space [] (fun _ => none) 400 401 300 (5 / 2) (.ok ())
        = ((fun _ => none), []) :=
  ⟨(evaluators_empty_series_noop spike10L [] (fun _ => none) 400 401 402 403 300 (5 / 2)
      (.ok ()) (.ok ())).1 (Or.inr rfl),
   (evaluators_empty_series_noop spike10L [] (fun _ => none) 400 401 402 403 300 (5 / 2)
      (.ok ()) (.ok ())).2.1⟩

/-- Core separation lemma for the alert gate: along any well-formed
trace, the deliveries for a fixed key form a chain in which each send
instant exceeds the previous one by strictly more than the cooldown;
moreover the first such delivery's send instant exceeds the initially
recorded timestamp (default 0) by more than the cooldown. -/
lemma monitorRun_filter_chain (cooldown : ℚ) (k : String) :
    ∀ (es : List AlertEvent) (st : String → Option ℚ) (t : ℚ), wfTrace t es →
      List.Chain' (fun a b : String × ℚ => a.2 + cooldown < b.2)
        ((monitorRun cooldown st es).filter (fun d => decide (d.1 = k)))
      ∧ ∀ d ∈ ((monitorRun cooldown st es).filter (fun d => decide (d.1 = k))).head?,
          ((st k).getD 0) + cooldown < d.2 := by
  intro es
  induction es with
  | nil =>
    intro st t _
    constructor
    · simp [monitorRun]
    · simp [monitorRun]
  | cons e es ih =>
    intro st t hwf
    obtain ⟨h1, h2, h3, hwf'⟩ := hwf
    rw [monitorRun]
    split
    · next hc =>
      by_cases hk : e.key = k
      · subst hk
        rw [List.filter_cons_of_pos (by simp)]
        have ihh := ih (record_alert st e.key e.tRecord) e.tRecord hwf'
        have hrec : ((record_alert st e.key e.tRecord) e.key).getD 0 = e.tRecord := by
          simp [record_alert]
        constructor
        · rw [List.chain'_cons']
          refine ⟨?_, ihh.1⟩
          intro d hd
          have hlt := ihh.2 d hd
          rw [hrec] at hlt
          dsimp only
          linarith
        · intro d hd
          simp only [List.head?_cons, Option.mem_def, Option.some.injEq] at hd
          subst hd
          have hca := hc.2
          rw [can_alert, decide_eq_true_eq] at hca
          dsimp only
          linarith
      · rw [List.filter_cons_of_neg (by simp [hk])]
        have ihh := ih (record_alert st e.key e.tRecord) e.tRecord hwf'
        refine ⟨ihh.1, ?_⟩
        intro d hd
        have hlt := ihh.2 d hd
        have hne : k ≠ e.key := fun h => hk h.symm
        rw [show (record_alert st e.key e.tRecord) k = st k by
          simp [record_alert, hne]] at hlt
        exact hlt
    · next hc =>
      exact ih st e.tRecord hwf'

/-- In a list that is pairwise separated by strictly more than
`cooldown` in its second components, at most one element lies in any
window `[w, w + cooldown]`. -/
lemma pairwise_separated_window_le_one (cooldown w : ℚ) (L : List (String × ℚ))
    (hpw : L.Pairwise (fun a b : String × ℚ => a.2 + cooldown < b.2)) :
    (L.filter (fun d => decide (w ≤ d.2) && decide (d.2 ≤ w + cooldown))).length ≤ 1 := by
  induction L with
  | nil => simp
  | cons a L ih =>
    rw [List.pairwise_cons] at hpw
    by_cases hpa : (decide (w ≤ a.2) && decide (a.2 ≤ w + cooldown)) = true
    · rw [List.filter_cons, if_pos hpa]
      have hnil : L.filter (fun d => decide (w ≤ d.2) && decide (d.2 ≤ w + cooldown)) = [] := by
        rw [List.filter_eq_nil_iff]
        intro x hx
        have hsep := hpw.1 x hx
        simp only [Bool.and_eq_true, decide_eq_true_eq] at hpa ⊢
        intro hcon
        have h1 : a.2 + cooldown < x.2 := hsep
        linarith [hpa.1, hcon.2]
      rw [hnil]
      simp
    · rw [List.filter_cons, if_neg hpa]
      exact ih hpw.2

/-- Claim C1: along any well-formed trace of evaluation events, for any
key and any time window of length `cooldown`, at most one delivery for
that key has its send instant inside the window — no matter how many
events in the trace flag an anomaly for the key, and whatever registry
the run starts from.  This is the check-then-record discipline of
lines 315/337, 348/371, 384/397 and 407/429. -/
theorem alert_cooldown_invariant (cooldown : ℚ) (hcd : 0 ≤ cooldown)
    (st : String → Option ℚ) (t0 : ℚ) (es : List AlertEvent)
    (hwf : wfTrace t0 es) (k : String) (w : ℚ) :
    ((monitorRun cooldown st es).filter
        (fun d => decide (d.1 = k) && decide (w ≤ d.2) &&
          decide (d.2 ≤ w + cooldown))).length ≤ 1 := by
  have hch := (monitorRun_filter_chain cooldown k es st t0 hwf).1
  have hpw : ((monitorRun cooldown st es).filter
      (fun d => decide (d.1 = k))).Pairwise
      (fun a b : String × ℚ => a.2 + cooldown < b.2) := by
    haveI : IsTrans (String × ℚ) (fun a b : String × ℚ => a.2 + cooldown < b.2) := by
      refine ⟨fun a b c hab hbc => ?_⟩
      replace hab : a.2 + cooldown < b.2 := hab
      replace hbc : b.2 + cooldown < c.2 := hbc
      show a.2 + cooldown < c.2
      linarith
    exact List.chain'_iff_pairwise.mp hch
  have hff : (monitorRun cooldown st es).filter
        (fun d => decide (d.1 = k) && decide (w ≤ d.2) &&
          decide (d.2 ≤ w + cooldown))
      = ((monitorRun cooldown st es).filter (fun d => decide (d.1 = k))).filter
          (fun d => decide (w ≤ d.2) && decide (d.2 ≤ w + cooldown)) := by
    rw [List.filter_filter]
    congr 1
    funext d
    cases decide (d.1 = k) <;> cases decide (w ≤ d.2) <;>
      cases decide (d.2 ≤ w + cooldown) <;> rfl
  rw [hff]
  exact pairwise_separated_window_le_one cooldown w _ hpw

/-- Claim C1, witness: two consecutive cycles both flag the key
`request_rate` inside one cooldown window (cooldown 300, checks at 400
and 460); the run delivers at most one alert in the window starting
at 350. -/
theorem alert_cooldown_invariant_witness :
    wfTrace 0 [⟨"request_rate", true, 400, 401, 402⟩,
      ⟨"request_rate", true, 460, 461, 462⟩]
    ∧ ((monitorRun 300 (fun _ => none)
        [⟨"request_rate", true, 400, 401, 402⟩,
          ⟨"request_rate", true, 460, 461, 462⟩]).filter
        (fun d => decide (d.1 = "request_rate") && decide ((350 : ℚ) ≤ d.2) &&
          decide (d.2 ≤ 350 + 300))).length ≤ 1 :=
  ⟨by norm_num [wfTrace],
   alert_cooldown_invariant 300 (by norm_num) (fun _ => none) 0
     [⟨"request_rate", true, 400, 401, 402⟩, ⟨"request_rate", true, 460, 461, 462⟩]
     (by norm_num [wfTrace]) "request_rate" 350⟩

end MinIO
